import Mathlib

/-!
Verification development for the pycsob payment-gateway client
(canonicalization, signing and verification protocol).

The Python sources `pycsob/utils.py` and `pycsob/client.py` are embedded
shallowly: Python values become the inductive `Value`, ordered dicts become
association lists (`Payload`), and fallible Python code returns
`Except PyErr`.  The external collaborators (PyCryptodome RSA/SHA-256 and
the base64 codec) are given a symbolic Dolev-Yao style model that follows
the behaviour documented in the spec (§4.2): signing produces an opaque
signature blob over the digest, verification succeeds exactly on a blob
for the same digest and key, key import fails on unparsable material, and
base64 decoding inverts encoding while rejecting malformed text.
-/

namespace Pycsob

/-- Exceptions that can escape the embedded Python code. -/
inductive PyErr where
  /-- Python `KeyError` raised by `dict[k]` / `dict.pop(k)` on a missing key. -/
  | keyError (k : String)
  /-- Python `ValueError` (unparsable key material in `RSA.importKey`, bad `int()`). -/
  | valueError
  /-- Python `TypeError` (iterating a non-iterable, indexing a non-dict, ...). -/
  | typeError
  /-- Python `AttributeError` (calling `.values()` on a non-dict). -/
  | attributeError
  /-- Python `binascii.Error` from `b64decode` on malformed base64 text. -/
  | binasciiError
  /-- Python `CsobVerifyError` raised on failed signature verification. -/
  | csobVerifyError (msg : String)
  /-- Python `CsobJSONDecodeError` raised when a response body is not JSON. -/
  | csobJSONDecodeError
  /-- Python `CsobBaseException` wrapping an `HTTPError` / transport failure. -/
  | csobBaseException
  deriving DecidableEq, Repr

/-- Symbolic model of Python byte strings as they appear in this code base:
either an opaque RSA PKCS#1 v1.5 signature blob over a digest (identified by
the digest and the signing key), or plain raw bytes. -/
inductive PyBytes where
  /-- Signature blob produced by PKCS#1 v1.5 signing of `digest` with key `keyId`. -/
  | sig (digest : String) (keyId : Nat)
  /-- Arbitrary non-signature bytes. -/
  | raw (s : String)
  deriving DecidableEq, Repr

/-- The union of Python values that flow through the pycsob payload code:
strings, integers, booleans, `None`, lists, (insertion-ordered) dicts and
byte strings. -/
inductive Value where
  | vstr (s : String)
  | vint (n : Int)
  | vbool (b : Bool)
  | vnone
  | vlist (items : List Value)
  | vdict (fields : List (String × Value))
  | vbytes (b : PyBytes)

/-- An ordered payload: a Python (Ordered)Dict as an association list with
unique keys, insertion order significant. -/
abbrev Payload := List (String × Value)

/-- Python `v is None` (identity test used in `mk_msg_for_sign`). -/
def isNone : Value → Bool
  | .vnone => true
  | _ => false

/-- Modelled from the spec: membership in `conf.EMPTY_VALUES` (the file
`conf.py` is not among the core sources).  Per §3/§4.3 the "empty" set is
null, the empty string and the empty sequence (list/tuple/dict), and
explicitly does not contain `0` or `False`. -/
def isEmptyValue : Value → Bool
  | .vnone => true
  | .vstr s => s.isEmpty
  | .vlist l => l.isEmpty
  | .vdict fs => fs.isEmpty
  | _ => false

/-- Python truthiness (`if not data: ...`). -/
def pyFalsy : Value → Bool
  | .vnone => true
  | .vstr s => s.isEmpty
  | .vint n => n == 0
  | .vbool b => !b
  | .vlist l => l.isEmpty
  | .vdict fs => fs.isEmpty
  | .vbytes (.raw s) => s.isEmpty
  | .vbytes (.sig _ _) => false

/-- Is the value an integer (`type(v) == int` shape check used in the
development to state non-coercion results)? -/
def isVInt : Value → Bool
  | .vint _ => true
  | _ => false

/-- Did a computation fail specifically with the `CsobVerifyError` kind? -/
def isVerifyErrRes {α : Type} : Except PyErr α → Bool
  | .error (.csobVerifyError _) => true
  | _ => false

/-- Is the value a dict or a list (`isinstance(value, (dict, list))`)? -/
def isContainer : Value → Bool
  | .vlist _ => true
  | .vdict _ => true
  | _ => false

/-- Dict lookup returning an `Option` (`data.get(k)`). -/
def lookupV (data : Payload) (k : String) : Option Value :=
  match data with
  | [] => none
  | (k', v) :: rest => if k' == k then some v else lookupV rest k

/-- Dict lookup with `Value.vnone` default; only used where the key is
known to be present. -/
def lookupD (data : Payload) (k : String) : Value :=
  (lookupV data k).getD .vnone

/-- Python `k in data` for a Python dict. -/
def hasKeyV (data : Payload) (k : String) : Bool :=
  (lookupV data k).isSome

/-- Python `data[k] = v` for a key already present in the dict: the value changes
in place, insertion order is preserved (assignment to an absent key is
never exercised by the embedded code, which guards with presence checks). -/
def setKeyV (data : Payload) (k : String) (v : Value) : Payload :=
  data.map (fun kv => if kv.1 == k then (k, v) else kv)

/-- Python `data.pop(k)` (the removal part; dict keys are unique). -/
def popKey (data : Payload) (k : String) : Payload :=
  data.filter (fun kv => !(kv.1 == k))

/-- Decimal digits of a natural number (fuel-based so that concrete
instances reduce definitionally). -/
def natDigitsAux : Nat → Nat → List Char
  | 0, _ => []
  | fuel + 1, n =>
    if n < 10 then [Nat.digitChar n]
    else natDigitsAux fuel (n / 10) ++ [Nat.digitChar (n % 10)]

/-- Python `str(n)` for a natural number. -/
def natStr (n : Nat) : String := String.mk (natDigitsAux (n + 1) n)

/-- Python `str(n)` for an integer (decimal, `-` sign for negatives). -/
def intStr : Int → String
  | .ofNat n => natStr n
  | .negSucc n => "-" ++ natStr (n + 1)

/-- A single-quote character, used by the Python `repr` of strings. -/
def sq : String := String.singleton (Char.ofNat 39)

mutual

/-- Python `repr`/`str` of container (and bytes) values.  This path is
reached by `str()` only when a payload still holds an unreplaced container,
which no code path of the repository exercises; it mirrors the CPython
`repr` of plain lists/dicts (string escaping inside `repr` is not modelled). -/
def containerRepr : Value → String
  | .vstr s => sq ++ s ++ sq
  | .vint n => intStr n
  | .vbool true => "True"
  | .vbool false => "False"
  | .vnone => "None"
  | .vlist items => "[" ++ ", ".intercalate (reprList items) ++ "]"
  | .vdict fs => "\x7b" ++ ", ".intercalate (reprFields fs) ++ "\x7d"
  | .vbytes (.raw s) => "b" ++ sq ++ s ++ sq
  | .vbytes (.sig d kid) => "b" ++ sq ++ "sig:" ++ natStr kid ++ ":" ++ d ++ sq

/-- Python `repr` of each element of a list value. -/
def reprList : List Value → List String
  | [] => []
  | v :: vs => containerRepr v :: reprList vs

/-- Python `repr` of each `'key': value` entry of a dict value. -/
def reprFields : List (String × Value) → List String
  | [] => []
  | (k, v) :: fs => (sq ++ k ++ sq ++ ": " ++ containerRepr v) :: reprFields fs

end

/-- Python `str(v)`.  Strings stay as they are, integers print in decimal,
booleans as `True`/`False`, `None` as `"None"`; containers fall back to
their `repr`. -/
def pyStr : Value → String
  | .vstr s => s
  | .vint n => intStr n
  | .vbool true => "True"
  | .vbool false => "False"
  | .vnone => "None"
  | v => containerRepr v

/-- Python `utils.str_or_jsbool`: exact-type booleans stringify as the lowercase
words `true`/`false`; everything else via `str()`. -/
def str_or_jsbool (v : Value) : String :=
  match v with
  | .vbool b => if b then "true" else "false"
  | _ => pyStr v

/-! ### Symbolic model of the external crypto / base64 collaborators -/

/-- Key material handed to `RSA.importKey`: either parseable PEM text for
the key pair identified by `keyId` (with or without the private half), or
unparsable garbage. -/
inductive KeyMaterial where
  /-- Parseable key material of pair `keyId`; `hasPrivate` marks a private key. -/
  | pem (keyId : Nat) (hasPrivate : Bool)
  /-- Unparsable key material. -/
  | invalid (s : String)
  deriving DecidableEq, Repr

/-- A parsed RSA key object. -/
structure RSAKey where
  keyId : Nat
  hasPrivate : Bool
  deriving DecidableEq, Repr

/-- Python `RSA.importKey`: parses PEM material, raises `ValueError` on garbage
(spec §7: ConfigurationError for unparsable key material). -/
def importKey : KeyMaterial → Except PyErr RSAKey
  | .pem kid priv => .ok ⟨kid, priv⟩
  | .invalid _ => .error .valueError

/-- Python `PKCS1_v1_5.new(key).sign(h)`: produces the signature blob over digest
`h`; raises `TypeError` when the key has no private half.  The SHA-256
digest is modelled as the message itself (an ideal injective hash). -/
def pkcs1_sign (h : String) (k : RSAKey) : Except PyErr PyBytes :=
  if k.hasPrivate then .ok (.sig h k.keyId) else .error .typeError

/-- Python `PKCS1_v1_5.new(key).verify(h, sig)`: the legacy PyCryptodome API that
returns a boolean, `false` for any bytes that are not a signature of this
digest by this key pair (including structurally invalid raw bytes). -/
def pkcs1_verify (h : String) (k : RSAKey) : PyBytes → Bool
  | .sig d kid => d == h && kid == k.keyId
  | .raw _ => false

/-- Python `base64.b64encode(..).decode()` on the symbolic byte strings, as a
character list.  The encoding is symbolic but injective and invertible:
a tag character, the key id in unary, a separator and the digest. -/
def b64encodeChars : PyBytes → List Char
  | .sig d kid => 'S' :: (List.replicate kid 'k' ++ ':' :: d.data)
  | .raw s => 'R' :: s.data

/-- Python `base64.b64encode(..).decode()`: the transport string of a byte blob. -/
def b64encode (b : PyBytes) : String := String.mk (b64encodeChars b)

/-- Read the unary key id of an encoded signature blob: the leading run of
`k` characters up to the `:` separator. -/
def splitUnary : List Char → Option (Nat × List Char)
  | ':' :: ds => some (0, ds)
  | 'k' :: rest => (splitUnary rest).map (fun p => (p.1 + 1, p.2))
  | _ => none

/-- Python `base64.b64decode` on text: inverts `b64encodeChars`; anything outside
the image of the encoder models malformed base64 and raises
`binascii.Error`. -/
def b64decodeChars : List Char → Except PyErr PyBytes
  | 'S' :: rest =>
    match splitUnary rest with
    | some (kid, ds) => .ok (.sig (String.mk ds) kid)
    | none => .error .binasciiError
  | 'R' :: rest => .ok (.raw (String.mk rest))
  | _ => .error .binasciiError

/-- Python `base64.b64decode(signature)` on the dynamically typed argument of
`utils.verify`: accepts text (and bytes, which — being raw RSA signature
blobs, not base64 text — fail to decode); other types raise `TypeError`. -/
def b64decodeVal : Value → Except PyErr PyBytes
  | .vstr s => b64decodeChars s.data
  | .vbytes _ => .error .binasciiError
  | _ => .error .typeError

/-! ### Canonical message builder (`utils.mk_msg_for_sign` and helpers) -/

/-- Python `one.values()`: the values of a dict in insertion order; on any
non-dict Python raises `AttributeError` (no `.values` attribute). -/
def dictValues : Value → Except PyErr (List Value)
  | .vdict fs => .ok (fs.map (fun kv => kv.2))
  | _ => .error .attributeError

/-- The loop `for one in cart: cart_msg.extend(one.values())`. -/
def cartExtend (acc : List Value) : List Value → Except PyErr (List Value)
  | [] => .ok acc
  | one :: rest => do cartExtend (acc ++ (← dictValues one)) rest

/-- Iterating the `cart` value and collecting all line-item values.  Lists
iterate their items; iterating a non-empty string or dict yields elements
without `.values()` (`AttributeError`); numbers, booleans and `None` are
not iterable (`TypeError`).  Only the list-of-dicts case is exercised by
the repository. -/
def cartIterValues : Value → Except PyErr (List Value)
  | .vlist items => cartExtend [] items
  | .vstr s => if s.isEmpty then .ok [] else .error .attributeError
  | .vdict fs => if fs.isEmpty then .ok [] else .error .attributeError
  | .vbytes (.raw s) => if s.isEmpty then .ok [] else .error .attributeError
  | .vbytes (.sig _ _) => .error .attributeError
  | _ => .error .typeError

/-- Python `'|'.join(str_or_jsbool(data[key]) for key in keys if key in data)`
(`get_joined_values` inside `get_customer_data_signature_message`). -/
def get_joined_values (data : Payload) (keys : List String) : String :=
  "|".intercalate ((keys.filter (fun k => hasKeyV data k)).map
    (fun k => str_or_jsbool (lookupD data k)))

/-- Python `customer_data.get(k, {})` followed by use as a dict.  A present
non-dict value would raise in the source; that path is never exercised and
the claims about customer data assume dict-or-absent sub-objects. -/
def subDict (data : Payload) (k : String) : Payload :=
  match lookupV data k with
  | some (.vdict g) => g
  | _ => []

/-- Python `utils.get_customer_data_signature_message`: the customer, account and
login segments joined with `|`, empty segments dropped
(`filter(None, ...)`). -/
def get_customer_data_signature_message (customer_data : Payload) : String :=
  let customer_msg := get_joined_values customer_data ["name", "email", "mobilePhone"]
  let account_msg := get_joined_values (subDict customer_data "account") ["createdAt", "changedAt"]
  let login_msg := get_joined_values (subDict customer_data "login") ["auth", "authAt"]
  "|".intercalate (([customer_msg, account_msg, login_msg]).filter (fun s => !s.isEmpty))

/-- The customer value as a dict for `get_customer_data_signature_message`;
a non-dict customer value would raise in the source (never exercised). -/
def customerMsg : Value → Except PyErr String
  | .vdict fs => .ok (get_customer_data_signature_message fs)
  | _ => .error .typeError

/-- Step 4 of §4.1: join the values of the (possibly replaced) payload
with `|`. -/
def joinPayloadVals (p : Payload) : String :=
  "|".intercalate ((p.map (fun kv => kv.2)).map str_or_jsbool)

/-- The cart block of `mk_msg_for_sign`: `if 'cart' in payload and
payload['cart'] not in conf.EMPTY_VALUES`, replace the cart value by the
pipe-join of all line-item values. -/
def cartStep (p : Payload) : Except PyErr Payload :=
  match lookupV p "cart" with
  | some cart =>
    if !(isEmptyValue cart) then
      (cartIterValues cart).map
        (fun vs => setKeyV p "cart" (.vstr ("|".intercalate (vs.map str_or_jsbool))))
    else .ok p
  | none => .ok p

/-- The customer block of `mk_msg_for_sign`: `if payload.get('customer')
not in conf.EMPTY_VALUES`, replace the customer value by its nested
signature message. -/
def customerStep (p : Payload) : Except PyErr Payload :=
  match lookupV p "customer" with
  | some c =>
    if !(isEmptyValue c) then (customerMsg c).map (fun m => setKeyV p "customer" (.vstr m))
    else .ok p
  | none => .ok p

/-- Python `utils.mk_msg_for_sign`: drop `None`-valued fields, replace a present
non-empty `cart` by the pipe-join of all line-item values, replace a
present non-empty `customer` by its nested signature message, then join
all values with `|`.  (UTF-8 encoding is injective, so the byte string is
modelled by the text itself.) -/
def mk_msg_for_sign (payload : Payload) : Except PyErr String := do
  let p ← cartStep (payload.filter (fun kv => !(isNone kv.2)))
  let p ← customerStep p
  pure (joinPayloadVals p)

/-- The canonical-message builder with its cart block removed: drop
`None`-valued fields, replace a present non-empty `customer`, join the
values — the steps of `mk_msg_for_sign` that still apply once `cart` has
already been replaced by its joined line-item string. -/
def mk_msg_no_cart (payload : Payload) : Except PyErr String := do
  let p ← customerStep (payload.filter (fun kv => !(isNone kv.2)))
  pure (joinPayloadVals p)

/-! ### Signer / verifier (`utils.sign`, `utils.verify`) -/

/-- Python `utils.sign(payload, key)`: SHA-256 digest of the canonical message,
PKCS#1 v1.5 signature, base64-encoded transport string. -/
def sign (payload : Payload) (key : KeyMaterial) : Except PyErr String := do
  let msg ← mk_msg_for_sign payload
  let k ← importKey key
  let sb ← pkcs1_sign msg k
  pure (b64encode sb)

/-- Python `utils.verify(payload, signature, pubkey)`: recomputes the canonical
message, imports the public key, base64-decodes the signature argument
itself, and checks the PKCS#1 v1.5 signature. -/
def verify (payload : Payload) (signature : Value) (pubkey : KeyMaterial) :
    Except PyErr Bool := do
  let msg ← mk_msg_for_sign payload
  let k ← importKey pubkey
  let sb ← b64decodeVal signature
  pure (pkcs1_verify msg k sb)

/-- Python `utils.mk_payload(key, pairs)`: drop pairs with empty values, sign the
filtered payload, append the signature as the trailing field. -/
def mk_payload (key : KeyMaterial) (pairs : Payload) : Except PyErr Payload := do
  let payload := pairs.filter (fun kv => !(isEmptyValue kv.2))
  let s ← sign payload key
  pure (payload ++ [("signature", .vstr s)])

/-! ### Response validator (`utils.validate_response`) -/

/-- Modelled from the spec: `conf.RESPONSE_KEYS`, the gateway's known
response-field vocabulary in its fixed order (`conf.py` is not among the
core sources).  Per §4.4 it contains the semantically-integer fields
`resultCode` and `paymentStatus`; the remaining keys and the order follow
the response fields exercised throughout the spec and tests. -/
def RESPONSE_KEYS : List String :=
  ["payId", "customerId", "dttm", "resultCode", "resultMessage",
   "paymentStatus", "authCode", "merchantData"]

/-- The fixed field subset of a masked-card extension block
(`maskclnrp_keys` in `validate_response`). -/
def maskclnrpKeys : List String :=
  ["extension", "dttm", "maskedCln", "expiration", "longMaskedCln"]

/-- Project the fields of `keys` present in `data`, in the order of `keys`
(the loops `for k in KEYS: if k in data: payload[k] = data[k]`). -/
def projectKeys (keys : List String) (data : Payload) : Payload :=
  (keys.filter (fun k => hasKeyV data k)).map (fun k => (k, lookupD data k))

/-- The ordered known-field subset of a response body that the gateway
signed. -/
def projectResponse (data : Payload) : Payload := projectKeys RESPONSE_KEYS data

/-- The ordered field subset of a masked-card extension element. -/
def projectMask (fs : Payload) : Payload := projectKeys maskclnrpKeys fs

/-- Python `one['extension'] in ('maskClnRP', 'maskCln')`: Python `in` compares
with `==`, so non-string tags simply fail the test. -/
def tagIsMask : Value → Bool
  | .vstr s => s == "maskClnRP" || s == "maskCln"
  | _ => false

/-- Python `data[k]` on a dict: the value, or `KeyError`. -/
def getKeyV (data : Payload) (k : String) : Except PyErr Value :=
  match lookupV data k with
  | some v => .ok v
  | none => .error (.keyError k)

/-- Indexing `one['extension']` requires `one` to be a dict; other element
types raise `TypeError` (never exercised). -/
def asExtDict : Value → Except PyErr Payload
  | .vdict fs => .ok fs
  | _ => .error .typeError

/-- The body of `for one in data['extensions']`: recognized (`maskCln` /
`maskClnRP`) elements are projected onto `maskclnrpKeys` and verified
independently; a failed verification raises `CsobVerifyError`; elements
with any other tag are skipped. -/
def process_ext_list (key : KeyMaterial) : List Value → Except PyErr (List Payload)
  | [] => .ok []
  | one :: rest => do
    let fs ← asExtDict one
    let tag ← getKeyV fs "extension"
    if tagIsMask tag then do
      let sv ← getKeyV fs "signature"
      let ok ← verify (projectMask fs) sv key
      if ok then do
        let more ← process_ext_list key rest
        pure (projectMask fs :: more)
      else .error (.csobVerifyError "Cannot verify masked card extension response")
    else process_ext_list key rest

/-- Iterating `data['extensions']`: lists iterate their elements; other
non-empty values fail on indexing their elements (never exercised). -/
def process_extensions (key : KeyMaterial) : Value → Except PyErr (List Payload)
  | .vlist ones => process_ext_list key ones
  | .vstr s => if s.isEmpty then .ok [] else .error .typeError
  | .vdict fs => if fs.isEmpty then .ok [] else .error .typeError
  | .vbytes (.raw s) => if s.isEmpty then .ok [] else .error .typeError
  | .vbytes (.sig _ _) => .error .typeError
  | _ => .error .typeError

/-- The HTTP response handed to `validate_response`: `raise_for_status()`
raises on an HTTP error status, `.json()` raises on a non-JSON body, and
otherwise the decoded JSON object is available. -/
inductive HttpResponse where
  /-- non-2xx status: `raise_for_status` raises `HTTPError`. -/
  | httpError
  /-- body is not valid JSON: `.json()` raises `JSONDecodeError`. -/
  | badJson
  /-- decoded JSON object of the body. -/
  | ok (data : Payload)

/-- Lines 79–85 of `utils.py`: transport errors become
`CsobBaseException`, undecodable bodies become `CsobJSONDecodeError`. -/
def getResponseData : HttpResponse → Except PyErr Payload
  | .httpError => .error .csobBaseException
  | .badJson => .error .csobJSONDecodeError
  | .ok d => .ok d

/-- The verified result: the projected top-level payload and the list of
verified extension payloads (`response.payload`, `response.extensions`). -/
structure ValidatedResponse where
  payload : Payload
  extensions : List Payload

/-- The `if 'extensions' in data` block of `validate_response`. -/
def extensionsStep (data : Payload) (key : KeyMaterial) : Except PyErr (List Payload) :=
  match lookupV data "extensions" with
  | some v => process_extensions key v
  | none => .ok []

/-- Python `utils.validate_response(response, key)`: parse, pop the signature
(`KeyError` when absent), project the known response keys, verify the
signature (raising `CsobVerifyError` on `False`), then verify any
masked-card extension blocks. -/
def validate_response (response : HttpResponse) (key : KeyMaterial) :
    Except PyErr ValidatedResponse := do
  let data ← getResponseData response
  let signature ← getKeyV data "signature"
  let ok ← verify (projectResponse (popKey data "signature")) signature key
  if ok then
    (extensionsStep (popKey data "signature") key).map
      (fun es => ⟨projectResponse (popKey data "signature"), es⟩)
  else .error (.csobVerifyError "Cannot verify response")

/-! ### Client (`client.py`): gateway return and payment_init -/

/-- Decimal digit-string value (helper for Python `int(str)`). -/
def digitsVal : List Char → Except PyErr Nat
  | [] => .error .valueError
  | ds =>
    if ds.all Char.isDigit then
      .ok (ds.foldl (fun a c => a * 10 + (c.toNat - 48)) 0)
    else .error .valueError

/-- Python `int(s)` on text: optional surrounding whitespace, optional
sign, decimal digits; anything else raises `ValueError` (digit-group
underscores are not modelled — never exercised). -/
def pyIntOfChars (cs : List Char) : Except PyErr Int :=
  let cs := cs.dropWhile Char.isWhitespace
  let cs := (cs.reverse.dropWhile Char.isWhitespace).reverse
  match cs with
  | '-' :: ds => (digitsVal ds).map (fun n => -(n : Int))
  | '+' :: ds => (digitsVal ds).map (fun n => (n : Int))
  | ds => (digitsVal ds).map (fun n => (n : Int))

/-- Python `int(v)`: ints stay, booleans become 0/1, strings parse in
decimal, other types raise `TypeError`. -/
def pyInt : Value → Except PyErr Value
  | .vint n => .ok (.vint n)
  | .vbool b => .ok (.vint (if b then 1 else 0))
  | .vstr s => (pyIntOfChars s.data).map .vint
  | _ => .error .typeError

/-- One entry of the `gateway_return` projection loop:
`o[k] = int(datadict[k]) if k in ('resultCode', 'paymentStatus') else datadict[k]`. -/
def gwStep (datadict : Payload) (k : String) : Except PyErr (String × Value) :=
  if k == "resultCode" || k == "paymentStatus" then
    (pyInt (lookupD datadict k)).map (fun w => (k, w))
  else .ok (k, lookupD datadict k)

/-- The `gateway_return` projection over an ordered key list, stopping at
the first `int()` failure like the Python loop. -/
def gw_projectList (datadict : Payload) : List String → Except PyErr Payload
  | [] => .ok []
  | k :: ks => do
    let kv ← gwStep datadict k
    let rest ← gw_projectList datadict ks
    pure (kv :: rest)

/-- The projection loop of `CsobClient.gateway_return`: known response
keys present in the datadict, `resultCode` and `paymentStatus` coerced
with `int()`. -/
def gw_project (datadict : Payload) : Except PyErr Payload :=
  gw_projectList datadict (RESPONSE_KEYS.filter (fun k => hasKeyV datadict k))

/-- Python `CsobClient.gateway_return(datadict)`: project and coerce the known
fields, then verify against `datadict['signature']`; raises
`CsobVerifyError` when verification returns false. -/
def gateway_return (datadict : Payload) (pubkey : KeyMaterial) :
    Except PyErr Payload := do
  let o ← gw_project datadict
  let sv ← getKeyV datadict "signature"
  let ok ← verify o sv pubkey
  if ok then pure o
  else .error (.csobVerifyError "Unverified gateway return data")

/-- Python `"s".split('_')` on character lists (`''.split('_') == ['']`). -/
def splitOnChar (sep : Char) : List Char → List (List Char)
  | [] => [[]]
  | c :: rest =>
    let r := splitOnChar sep rest
    if c == sep then [] :: r
    else
      match r with
      | g :: gs => (c :: g) :: gs
      | [] => [[c]]

/-- Python `str.lower` (ASCII model; the embedded keys are ASCII). -/
def pyLower (s : String) : String := String.mk (s.data.map Char.toLower)

/-- Python `str.title` on characters: the first alphabetic character of
each alphabetic run is uppercased, the rest lowercased (ASCII model). -/
def pyTitleChars : Bool → List Char → List Char
  | _, [] => []
  | prev, c :: cs =>
    (if c.isAlpha then (if prev then c.toLower else c.toUpper) else c)
      :: pyTitleChars c.isAlpha cs

/-- Python `str.title` (ASCII model). -/
def pyTitle (s : String) : String := String.mk (pyTitleChars false s.data)

/-- Python `utils.to_camel_case`: split on `_`; a single chunk is returned
unchanged, otherwise the first chunk is lowercased and the rest
title-cased and all are concatenated. -/
def to_camel_case (value : String) : String :=
  match (splitOnChar '_' value.data).map String.mk with
  | [] => value
  | [w] => w
  | w :: ws => String.join (pyLower w :: ws.map pyTitle)

mutual

/-- Python `utils.convert_keys_to_camel_case`: recursively camel-cases the string
keys of dicts inside a value; falsy data is returned unchanged.  (In this
embedding dict keys are always strings, so the logged non-string-key
branch of the source is vacuous.) -/
def convert_keys_to_camel_case (data : Value) : Value :=
  if pyFalsy data then data
  else
    match data with
    | .vlist values => .vlist (convertList values)
    | .vdict fs => .vdict (convertFields fs)
    | v => v

/-- The list branch of `convert_keys_to_camel_case`: containers recurse,
leaves stay. -/
def convertList : List Value → List Value
  | [] => []
  | v :: vs =>
    (if isContainer v then convert_keys_to_camel_case v else v) :: convertList vs

/-- The dict branch of `convert_keys_to_camel_case`: keys are camel-cased,
container values recurse. -/
def convertFields : List (String × Value) → List (String × Value)
  | [] => []
  | (k, v) :: fs =>
    (to_camel_case k, if isContainer v then convert_keys_to_camel_case v else v)
      :: convertFields fs

end

/-- Python `CsobClient.payment_init` without its description-length guard: the
ordered request pairs of `payment/init` (with the default cart built from
the description and total amount when the cart is falsy), assembled and
signed by `mk_payload`.  The timestamp `dttm()` is passed in as `dttm_val`
and the HTTP POST / response validation is the external transport step
that consumes the returned payload. -/
def payment_init_unchecked (merchant_id : String) (key : KeyMaterial)
    (dttm_val : String) (order_no : Value) (total_amount : Value)
    (return_url : String) (description : String) (customer_data : Value)
    (merchant_data : Value) (cart : Value) (customer_id : Value)
    (currency : String) (language : String) (close_payment : Bool)
    (return_method : String) (pay_operation : String) (ttl_sec : Int)
    (logo_version : Value) (color_scheme_version : Value) :
    Except PyErr Payload :=
  let cart' :=
    if pyFalsy cart then
      Value.vlist [.vdict [("name", .vstr description), ("quantity", .vint 1),
        ("amount", total_amount)]]
    else cart
  mk_payload key
    [("merchantId", .vstr merchant_id),
     ("orderNo", .vstr (pyStr order_no)),
     ("dttm", .vstr dttm_val),
     ("payOperation", .vstr pay_operation),
     ("payMethod", .vstr "card"),
     ("totalAmount", total_amount),
     ("currency", .vstr currency),
     ("closePayment", .vbool close_payment),
     ("returnUrl", .vstr return_url),
     ("returnMethod", .vstr return_method),
     ("cart", cart'),
     ("customer", convert_keys_to_camel_case customer_data),
     ("merchantData", merchant_data),
     ("customerId", customer_id),
     ("language", .vstr language),
     ("ttlSec", .vint ttl_sec),
     ("logoVersion", logo_version),
     ("colorSchemeVersion", color_scheme_version)]

/-- Python `CsobClient.payment_init`: rejects descriptions longer than 20
characters with `ValueError` before assembling anything, then proceeds as
`payment_init_unchecked`. -/
def payment_init (merchant_id : String) (key : KeyMaterial)
    (dttm_val : String) (order_no : Value) (total_amount : Value)
    (return_url : String) (description : String) (customer_data : Value)
    (merchant_data : Value) (cart : Value) (customer_id : Value)
    (currency : String) (language : String) (close_payment : Bool)
    (return_method : String) (pay_operation : String) (ttl_sec : Int)
    (logo_version : Value) (color_scheme_version : Value) :
    Except PyErr Payload :=
  if description.length > 20 then .error .valueError
  else
    payment_init_unchecked merchant_id key dttm_val order_no total_amount
      return_url description customer_data merchant_data cart customer_id
      currency language close_payment return_method pay_operation ttl_sec
      logo_version color_scheme_version

/-- The claim's formulation of one customer segment: the `|`-join of the
renderings of exactly the keys present in the sub-object, in the given
fixed key order. -/
def segmentSpec (fs : Payload) (keys : List String) : String :=
  "|".intercalate (keys.filterMap (fun k => (lookupV fs k).map str_or_jsbool))

/-- The claim's formulation of the customer contribution: three segments —
customer fields (name, email, mobilePhone), account fields (createdAt,
changedAt), login fields (auth, authAt) — joined with `|` in that order,
with segments that come out empty omitted from the join entirely. -/
def customerMsgSpec (cd account login : Payload) : String :=
  "|".intercalate
    (([segmentSpec cd ["name", "email", "mobilePhone"],
       segmentSpec account ["createdAt", "changedAt"],
       segmentSpec login ["auth", "authAt"]]).filter (fun s => !(s.isEmpty)))

/-! ### Infrastructure lemmas -/

/-- Bind on a successful `Except` computation. -/
@[simp] theorem bind_ok {ε α β : Type} (a : α) (f : α → Except ε β) :
    ((Except.ok a : Except ε α) >>= f) = f a := rfl

/-- Bind on a failed `Except` computation. -/
@[simp] theorem bind_error {ε α β : Type} (e : ε) (f : α → Except ε β) :
    ((Except.error e : Except ε α) >>= f) = .error e := rfl

/-- The field list of a constructed string. -/
@[simp] theorem strDataMk (l : List Char) : (String.mk l).data = l := rfl

/-- The function `splitUnary` inverts the unary key-id encoding. -/
theorem splitUnary_replicate (kid : Nat) (ds : List Char) :
    splitUnary (List.replicate kid 'k' ++ ':' :: ds) = some (kid, ds) := by
  induction kid with
  | zero => rfl
  | succ n ih => simp [List.replicate_succ, splitUnary, ih]

/-- The symbolic base64 decoder inverts the encoder. -/
theorem b64decodeChars_encodeChars (b : PyBytes) :
    b64decodeChars (b64encodeChars b) = .ok b := by
  cases b with
  | sig d kid => simp [b64encodeChars, b64decodeChars, splitUnary_replicate]
  | raw s => rfl

/-! ### C1: sign/verify round trip -/

/-- C1: for every payload `P` signed successfully over its canonical
message with the private key of pair `n`, verifying `P` unchanged with
either half of pair `n` returns true — the sign/verify round-trip law. -/
theorem claim_C1_sign_verify_roundtrip (P : Payload) (n : Nat) (b : Bool) (s : String)
    (h : sign P (.pem n true) = .ok s) :
    verify P (.vstr s) (.pem n b) = .ok true := by
  unfold sign at h
  cases hm : mk_msg_for_sign P with
  | error e => rw [hm] at h; simp at h
  | ok m =>
    rw [hm] at h
    simp [importKey, pkcs1_sign, RSAKey.hasPrivate] at h
    subst h
    unfold verify
    rw [hm]
    simp [importKey, b64decodeVal, b64encode, b64decodeChars_encodeChars, pkcs1_verify]

/-- C1 witness: the §8 scenario payload signed and verified with key
pair 1 (with `resultCode` retained as the integer 0). -/
theorem claim_C1_witness :
    verify [("merchantId", Value.vstr "M"), ("dttm", Value.vstr "20240101120000"),
      ("resultCode", Value.vint 0), ("resultMessage", Value.vstr "OK")]
      (.vstr "Sk:M|20240101120000|0|OK") (.pem 1 true) = .ok true :=
  claim_C1_sign_verify_roundtrip _ 1 true _ (by rfl)

/-! ### C5: error behaviour of `verify` -/

/-- C5 counterexample: the same payload/signature pair that verifies as
true under a parseable public key makes `verify` raise `ValueError` (from
`RSA.importKey`) when the public key supplied at call time is unparsable —
`verify` does not return false there, refuting "verify never raises". -/
theorem claim_C5_counterexample :
    verify [("merchantId", Value.vstr "M")] (.vstr "Sk:M") (.invalid "junk")
        = .error .valueError
    ∧ verify [("merchantId", Value.vstr "M")] (.vstr "Sk:M") (.pem 1 false) = .ok true :=
  ⟨rfl, rfl⟩

/-- C5 (amended): `verify` returns false, without raising, for a
base64-decodable but structurally invalid signature and for a signature
over a different digest; but it raises `ValueError` for an unparsable
public key supplied at call time, and propagates the base64 decode error
for a signature that does not decode. -/
theorem claim_C5_verify_errors (P : Payload) (s : Value) (m : String)
    (hm : mk_msg_for_sign P = .ok m) :
    (∀ pub k raw, importKey pub = .ok k → b64decodeVal s = .ok (.raw raw) →
      verify P s pub = .ok false)
    ∧ (∀ pub k d kid, importKey pub = .ok k → b64decodeVal s = .ok (.sig d kid) →
      d ≠ m → verify P s pub = .ok false)
    ∧ (∀ t, verify P s (.invalid t) = .error .valueError)
    ∧ (∀ pub k e, importKey pub = .ok k → b64decodeVal s = .error e →
      verify P s pub = .error e) := by
  refine ⟨fun pub k raw hk hs => ?_, fun pub k d kid hk hs hne => ?_,
    fun t => ?_, fun pub k e hk hs => ?_⟩ <;>
    unfold verify <;> rw [hm]
  · simp [hk, hs, pkcs1_verify]
  · have hd : (d == m) = false := beq_eq_false_iff_ne.mpr hne
    simp [hk, hs, pkcs1_verify, hd]
  · simp [importKey]
  · simp [hk, hs]

/-- C5 witness: a raw-bytes (non-signature) decode verifies as false;
an unparsable public key raises. -/
theorem claim_C5_witness :
    verify [("a", Value.vstr "x")] (.vstr "Rj") (.pem 2 false) = .ok false
    ∧ verify [("a", Value.vstr "x")] (.vstr "Rj") (.invalid "bad") = .error .valueError :=
  ⟨(claim_C5_verify_errors [("a", Value.vstr "x")] (.vstr "Rj") "x" rfl).1
      (.pem 2 false) ⟨2, false⟩ "j" rfl rfl,
   (claim_C5_verify_errors [("a", Value.vstr "x")] (.vstr "Rj") "x" rfl).2.2.1 "bad"⟩

/-! ### C6: base64 transport of signatures -/

/-- C6 counterexample: handing `verify` the already-decoded raw signature
bytes fails (its internal `b64decode` rejects them), while handing it the
base64-encoded transport string verifies — so the caller does not perform
the base64 decode before calling `verify`; `verify` does. -/
theorem claim_C6_counterexample :
    verify [("merchantId", Value.vstr "M")] (.vbytes (.sig "M" 3)) (.pem 3 false)
        = .error .binasciiError
    ∧ verify [("merchantId", Value.vstr "M")] (.vstr "Skkk:M") (.pem 3 false) = .ok true :=
  ⟨rfl, rfl⟩

/-- C6 (amended): `sign` returns the base64-encoded signature string, and
`verify` takes the base64-encoded signature and performs the decode
itself; the already-decoded raw signature bytes are not accepted. -/
theorem claim_C6_signature_transport (P : Payload) (m : String) (n : Nat) (b : Bool)
    (hm : mk_msg_for_sign P = .ok m) :
    sign P (.pem n true) = .ok (b64encode (.sig m n))
    ∧ verify P (.vstr (b64encode (.sig m n))) (.pem n b) = .ok true
    ∧ verify P (.vbytes (.sig m n)) (.pem n b) = .error .binasciiError := by
  refine ⟨?_, ?_, ?_⟩
  · unfold sign; rw [hm]; simp [importKey, pkcs1_sign, RSAKey.hasPrivate]
  · unfold verify; rw [hm]
    simp [importKey, b64decodeVal, b64encode, b64decodeChars_encodeChars, pkcs1_verify]
  · unfold verify; rw [hm]; simp [importKey, b64decodeVal]

/-- C6 witness: concrete signing key pair 2 on a one-field payload. -/
theorem claim_C6_witness :
    sign [("a", Value.vstr "x")] (.pem 2 true) = .ok (b64encode (.sig "x" 2))
    ∧ verify [("a", Value.vstr "x")] (.vstr (b64encode (.sig "x" 2))) (.pem 2 true) = .ok true
    ∧ verify [("a", Value.vstr "x")] (.vbytes (.sig "x" 2)) (.pem 2 true)
        = .error .binasciiError :=
  claim_C6_signature_transport [("a", Value.vstr "x")] "x" 2 true rfl

/-- Updating one key leaves lookups of other keys unchanged. -/
theorem lookupV_setKeyV_ne (p : Payload) (k k' : String) (v : Value)
    (h : (k' == k) = false) : lookupV (setKeyV p k v) k' = lookupV p k' := by
  have hkk' : (k == k') = false :=
    beq_eq_false_iff_ne.mpr (Ne.symm (beq_eq_false_iff_ne.mp h))
  induction p with
  | nil => rfl
  | cons kv rest ih =>
    obtain ⟨a, w⟩ := kv
    show lookupV ((if (a == k) = true then (k, v) else (a, w)) :: setKeyV rest k v) k'
        = lookupV ((a, w) :: rest) k'
    by_cases hk : (a == k) = true
    · rw [if_pos hk]
      have ha : a = k := eq_of_beq hk
      show (if (k == k') = true then some v else lookupV (setKeyV rest k v) k')
          = if (a == k') = true then some w else lookupV rest k'
      rw [if_neg (by simp [hkk']), ha, if_neg (by simp [hkk']), ih]
    · rw [if_neg hk]
      show (if (a == k') = true then some w else lookupV (setKeyV rest k v) k')
          = if (a == k') = true then some w else lookupV rest k'
      rw [ih]

/-- The value `None` is an empty value. -/
@[simp] theorem isEmptyValue_vnone : isEmptyValue Value.vnone = true := rfl

/-- The empty string is an empty value. -/
@[simp] theorem isEmptyValue_vstr_nil : isEmptyValue (Value.vstr "") = true := rfl

/-- The empty list is an empty value. -/
@[simp] theorem isEmptyValue_vlist_nil : isEmptyValue (Value.vlist []) = true := rfl

/-- Re-filtering a `None`-filtered payload whose value at one key has been
replaced by a string is a no-op. -/
theorem filter_setKeyV_filter (P : Payload) (k : String) (s : String) :
    (setKeyV (P.filter (fun kv => !(isNone kv.2))) k (.vstr s)).filter
        (fun kv => !(isNone kv.2))
      = setKeyV (P.filter (fun kv => !(isNone kv.2))) k (.vstr s) := by
  apply List.filter_eq_self.mpr
  intro kv hkv
  obtain ⟨kv0, hkv0, rfl⟩ := List.mem_map.mp hkv
  by_cases hk : (kv0.1 == k) = true
  · rw [if_pos hk]
    rfl
  · rw [if_neg hk]
    exact (List.mem_filter.mp hkv0).2

/-! ### C7: empty-value filtering in the payload assembler -/

/-- C7: `mk_payload` transmits exactly the pairs whose values are outside
the empty set — the signed canonical message is computed over that same
filtered sequence (the appended `signature` field excluded) — where
null, the empty string and the empty sequence are dropped, while the
integer `0` and the boolean values are retained. -/
theorem claim_C7_empty_filtering (key : KeyMaterial) (pairs env : Payload)
    (h : mk_payload key pairs = .ok env) :
    (∃ s, sign (pairs.filter (fun kv => !(isEmptyValue kv.2))) key = .ok s
        ∧ env = pairs.filter (fun kv => !(isEmptyValue kv.2)) ++ [("signature", .vstr s)])
    ∧ (∀ k, (k, Value.vnone) ∉ pairs.filter (fun kv => !(isEmptyValue kv.2))
        ∧ (k, Value.vstr "") ∉ pairs.filter (fun kv => !(isEmptyValue kv.2))
        ∧ (k, Value.vlist []) ∉ pairs.filter (fun kv => !(isEmptyValue kv.2)))
    ∧ (∀ k, (k, Value.vint 0) ∈ pairs → (k, Value.vint 0) ∈ env)
    ∧ (∀ k b, (k, Value.vbool b) ∈ pairs → (k, Value.vbool b) ∈ env) := by
  cases hs : sign (pairs.filter (fun kv => !(isEmptyValue kv.2))) key with
  | error e => simp [mk_payload, hs] at h
  | ok s =>
    simp only [mk_payload, hs, bind_ok, pure, Except.pure, Except.ok.injEq] at h
    have henv : env = pairs.filter (fun kv => !(isEmptyValue kv.2))
        ++ [("signature", .vstr s)] := h.symm
    refine ⟨⟨s, rfl, henv⟩, ?_, ?_, ?_⟩
    · intro k
      refine ⟨fun hmem => ?_, fun hmem => ?_, fun hmem => ?_⟩ <;>
        simpa using (List.mem_filter.mp hmem).2
    · intro k hmem
      rw [henv]
      exact List.mem_append_left _ (List.mem_filter.mpr ⟨hmem, rfl⟩)
    · intro k b hmem
      rw [henv]
      exact List.mem_append_left _ (List.mem_filter.mpr ⟨hmem, rfl⟩)

/-- C7 witness: a payload mixing empty values (`None`, `""`, `[]`) with
the retained falsy values `0` and `False`. -/
theorem claim_C7_witness :
    ("e", Value.vint 0) ∈ ([("a", Value.vstr "x"), ("e", Value.vint 0),
        ("f", Value.vbool false), ("signature", Value.vstr "Sk:x|0|false")] : Payload)
    ∧ ("f", Value.vbool false) ∈ ([("a", Value.vstr "x"), ("e", Value.vint 0),
        ("f", Value.vbool false), ("signature", Value.vstr "Sk:x|0|false")] : Payload)
    ∧ ∀ k, (k, Value.vnone) ∉ ([("a", Value.vstr "x"), ("b", Value.vnone),
        ("c", Value.vstr ""), ("d", Value.vlist []), ("e", Value.vint 0),
        ("f", Value.vbool false)] : Payload).filter (fun kv => !(isEmptyValue kv.2)) := by
  have happ := claim_C7_empty_filtering (.pem 1 true)
    [("a", Value.vstr "x"), ("b", Value.vnone), ("c", Value.vstr ""),
     ("d", Value.vlist []), ("e", Value.vint 0), ("f", Value.vbool false)]
    [("a", Value.vstr "x"), ("e", Value.vint 0), ("f", Value.vbool false),
     ("signature", Value.vstr "Sk:x|0|false")] rfl
  refine ⟨?_, ?_, fun k => (happ.2.1 k).1⟩
  · exact happ.2.2.1 "e" (by simp)
  · exact happ.2.2.2 "f" false (by simp)

/-! ### C8: cart flattening in the canonical message -/

/-- C8 counterexample: the equation of the claim fails in three ways on
the code.  (i) Canonicalizing the payload with `cart` literally replaced
by its joined string raises `AttributeError`: the builder re-enters the
cart branch on the non-empty string and iterates its characters, which
have no `.values()`.  (ii) With a present non-empty `customer` the
builder also replaces the customer value by its nested signature message,
so the plain value-join of the cart-substituted payload (which `str()`s
the customer dict) differs from the canonical message.  (iii) A
`None`-valued field is dropped by the builder but would be joined as the
word `None` by the plain value-join of the substituted payload. -/
theorem claim_C8_counterexample :
    mk_msg_for_sign [("cart", Value.vlist [Value.vdict
        [("name", Value.vstr "x"), ("quantity", Value.vint 1), ("amount", Value.vint 100)]])]
      = .ok "x|1|100"
    ∧ mk_msg_for_sign [("cart", Value.vstr "x|1|100")] = .error .attributeError
    ∧ mk_msg_for_sign [("cart", Value.vlist [Value.vdict
        [("name", Value.vstr "x"), ("quantity", Value.vint 1), ("amount", Value.vint 100)]]),
        ("customer", Value.vdict [("name", Value.vstr "J")])]
      = .ok "x|1|100|J"
    ∧ joinPayloadVals (setKeyV [("cart", Value.vlist [Value.vdict
        [("name", Value.vstr "x"), ("quantity", Value.vint 1), ("amount", Value.vint 100)]]),
        ("customer", Value.vdict [("name", Value.vstr "J")])] "cart" (.vstr "x|1|100"))
      ≠ "x|1|100|J"
    ∧ mk_msg_for_sign [("cart", Value.vlist [Value.vdict
        [("name", Value.vstr "x"), ("quantity", Value.vint 1), ("amount", Value.vint 100)]]),
        ("merchantData", Value.vnone)]
      = .ok "x|1|100"
    ∧ joinPayloadVals (setKeyV [("cart", Value.vlist [Value.vdict
        [("name", Value.vstr "x"), ("quantity", Value.vint 1), ("amount", Value.vint 100)]]),
        ("merchantData", Value.vnone)] "cart" (.vstr "x|1|100"))
      ≠ "x|1|100" :=
  ⟨rfl, rfl, rfl, by decide, rfl, by decide⟩

/-- C8 (amended): for every payload whose `None`-filtered form has a
present non-empty list `cart`, the canonical message equals the one of
the filtered payload with `cart`'s value replaced by the pipe-joined
string of all line-item values (items in list order, fields in their
stored order), canonicalized by the remainder of the builder — a present
non-empty `customer` is still replaced by its nested signature message —
rather than by re-running the full builder, which raises instead;
booleans stringify as the lowercase words `true`/`false`. -/
theorem claim_C8_cart_flattening (P : Payload) (items vs : List Value)
    (hcart : lookupV (P.filter (fun kv => !(isNone kv.2))) "cart"
        = some (.vlist items))
    (hne : items ≠ [])
    (hvs : cartIterValues (.vlist items) = .ok vs) :
    mk_msg_for_sign P
      = mk_msg_no_cart (setKeyV (P.filter (fun kv => !(isNone kv.2))) "cart"
          (.vstr ("|".intercalate (vs.map str_or_jsbool))))
    ∧ str_or_jsbool (.vbool true) = "true"
    ∧ str_or_jsbool (.vbool false) = "false" := by
  refine ⟨?_, rfl, rfl⟩
  have hie : isEmptyValue (.vlist items) = false := by
    cases items with
    | nil => exact absurd rfl hne
    | cons a as => rfl
  have hcs : cartStep (P.filter (fun kv => !(isNone kv.2)))
      = .ok (setKeyV (P.filter (fun kv => !(isNone kv.2))) "cart"
          (.vstr ("|".intercalate (vs.map str_or_jsbool)))) := by
    unfold cartStep
    rw [hcart]
    simp [hie, hvs, Except.map]
  unfold mk_msg_for_sign mk_msg_no_cart
  rw [hcs, bind_ok, filter_setKeyV_filter]

/-- C8 witness: a payload carrying a cart, a non-empty customer and a
`None`-valued field — exactly the shape `payment_init` builds; both the
customer replacement and the `None` drop are exercised on each side. -/
theorem claim_C8_witness :
    mk_msg_for_sign [("cart", Value.vlist [Value.vdict [("name", Value.vstr "x"),
          ("quantity", Value.vint 1), ("amount", Value.vint 100)]]),
        ("customer", Value.vdict [("name", Value.vstr "J")]),
        ("merchantData", Value.vnone)]
      = mk_msg_no_cart (setKeyV
          (([("cart", Value.vlist [Value.vdict [("name", Value.vstr "x"),
               ("quantity", Value.vint 1), ("amount", Value.vint 100)]]),
             ("customer", Value.vdict [("name", Value.vstr "J")]),
             ("merchantData", Value.vnone)] : Payload).filter
            (fun kv => !(isNone kv.2))) "cart"
          (.vstr ("|".intercalate
            ([Value.vstr "x", Value.vint 1, Value.vint 100].map str_or_jsbool)))) :=
  (claim_C8_cart_flattening
    [("cart", Value.vlist [Value.vdict [("name", Value.vstr "x"),
       ("quantity", Value.vint 1), ("amount", Value.vint 100)]]),
     ("customer", Value.vdict [("name", Value.vstr "J")]),
     ("merchantData", Value.vnone)]
    [Value.vdict [("name", Value.vstr "x"),
       ("quantity", Value.vint 1), ("amount", Value.vint 100)]]
    [Value.vstr "x", Value.vint 1, Value.vint 100]
    rfl (List.cons_ne_nil _ _) rfl).1

/-! ### C9: customer data canonical contribution -/

/-- The source function `get_joined_values` agrees with the claim's segment formulation. -/
theorem get_joined_values_eq_segmentSpec (fs : Payload) (keys : List String) :
    get_joined_values fs keys = segmentSpec fs keys := by
  unfold get_joined_values segmentSpec
  congr 1
  induction keys with
  | nil => rfl
  | cons k ks ih =>
    cases hk : lookupV fs k with
    | none => simpa [List.filter_cons, List.filterMap_cons, hasKeyV, hk, lookupD] using ih
    | some v => simpa [List.filter_cons, List.filterMap_cons, hasKeyV, hk, lookupD] using ih

/-- C9: for customer data whose `account` and `login` sub-objects are
each absent or a dict, the canonical-message contribution is the ordered
pipe-join of the customer, account and login segments, each segment
joining only the keys present in its fixed order, with empty segments
omitted. -/
theorem claim_C9_customer_segments (cd ga gl : Payload)
    (hacc : lookupV cd "account" = none ∧ ga = []
        ∨ lookupV cd "account" = some (.vdict ga))
    (hlog : lookupV cd "login" = none ∧ gl = []
        ∨ lookupV cd "login" = some (.vdict gl)) :
    get_customer_data_signature_message cd = customerMsgSpec cd ga gl := by
  have hga : subDict cd "account" = ga := by
    cases hacc with
    | inl h => rw [subDict, h.1, h.2]
    | inr h => rw [subDict, h]
  have hgl : subDict cd "login" = gl := by
    cases hlog with
    | inl h => rw [subDict, h.1, h.2]
    | inr h => rw [subDict, h]
  unfold get_customer_data_signature_message customerMsgSpec
  rw [hga, hgl, get_joined_values_eq_segmentSpec,
    get_joined_values_eq_segmentSpec, get_joined_values_eq_segmentSpec]

/-- C9 witness: a customer with name and email, a one-field account
sub-object and no login sub-object (its segment is omitted). -/
theorem claim_C9_witness :
    get_customer_data_signature_message
        [("name", Value.vstr "Jiri"), ("email", Value.vstr "j@x.cz"),
         ("account", Value.vdict [("createdAt", Value.vstr "T1")])]
      = customerMsgSpec
          [("name", Value.vstr "Jiri"), ("email", Value.vstr "j@x.cz"),
           ("account", Value.vdict [("createdAt", Value.vstr "T1")])]
          [("createdAt", Value.vstr "T1")] [] :=
  claim_C9_customer_segments _ _ _ (Or.inr rfl) (Or.inl ⟨rfl, rfl⟩)

/-! ### C2: extension verification -/

/-- Processing a concatenation of extension elements: the prefix runs
first, and only if it succeeds does the suffix run, the verified subsets
accumulating in order. -/
theorem process_ext_list_append (key : KeyMaterial) (xs ys : List Value) :
    process_ext_list key (xs ++ ys)
      = process_ext_list key xs >>= fun a =>
          (process_ext_list key ys).map (fun b => a ++ b) := by
  induction xs with
  | nil =>
    cases h : process_ext_list key ys <;>
      simp [process_ext_list, h, Except.map]
  | cons one rest ih =>
    show process_ext_list key (one :: (rest ++ ys)) = _
    cases hfs : asExtDict one with
    | error e => simp [process_ext_list, hfs]
    | ok fs =>
      cases htag : getKeyV fs "extension" with
      | error e => simp [process_ext_list, hfs, htag]
      | ok tag =>
        by_cases hmask : tagIsMask tag = true
        · cases hsv : getKeyV fs "signature" with
          | error e => simp [process_ext_list, hfs, htag, hmask, hsv]
          | ok sv =>
            cases hv : verify (projectMask fs) sv key with
            | error e => simp [process_ext_list, hfs, htag, hmask, hsv, hv]
            | ok b =>
              cases b with
              | false => simp [process_ext_list, hfs, htag, hmask, hsv, hv]
              | true =>
                cases ha : process_ext_list key rest with
                | error e =>
                  simp [process_ext_list, hfs, htag, hmask, hsv, hv, ih, ha]
                | ok a =>
                  cases hb : process_ext_list key ys with
                  | error e =>
                    simp [process_ext_list, hfs, htag, hmask, hsv, hv, ih, ha, hb,
                      Except.map]
                  | ok b2 =>
                    simp [process_ext_list, hfs, htag, hmask, hsv, hv, ih, ha, hb,
                      Except.map]
        · have hm : tagIsMask tag = false := by simpa using hmask
          simp [process_ext_list, hfs, htag, hm, ih]

/-- C2: extension blocks of a response are handled fail-closed: (i) an
element whose `extension` tag is unrecognized is skipped — not verified,
no error — at any position; (ii) a recognized (`maskCln`/`maskClnRP`)
element is verified independently over its ordered present-field subset
and contributes exactly that subset on success; (iii) a recognized
element failing verification makes the whole `validate_response` call
raise `CsobVerifyError`, returning no data; (iv) on the main-signature
path the call returns the projected payload together with the processed
extension subsets. -/
theorem claim_C2_extension_validation (key : KeyMaterial) :
    (∀ xs fs tag rest, lookupV fs "extension" = some tag → tagIsMask tag = false →
      process_ext_list key (xs ++ Value.vdict fs :: rest)
        = process_ext_list key (xs ++ rest))
    ∧ (∀ fs tag sv rest more, lookupV fs "extension" = some tag → tagIsMask tag = true →
      lookupV fs "signature" = some sv →
      verify (projectMask fs) sv key = .ok true →
      process_ext_list key rest = .ok more →
      process_ext_list key (Value.vdict fs :: rest) = .ok (projectMask fs :: more))
    ∧ (∀ data sigv xs fs tag sv rest accs,
      lookupV data "signature" = some sigv →
      lookupV (popKey data "signature") "extensions"
        = some (.vlist (xs ++ Value.vdict fs :: rest)) →
      verify (projectResponse (popKey data "signature")) sigv key = .ok true →
      process_ext_list key xs = .ok accs →
      lookupV fs "extension" = some tag → tagIsMask tag = true →
      lookupV fs "signature" = some sv →
      verify (projectMask fs) sv key = .ok false →
      validate_response (.ok data) key
        = .error (.csobVerifyError "Cannot verify masked card extension response"))
    ∧ (∀ data sigv ones,
      lookupV data "signature" = some sigv →
      lookupV (popKey data "signature") "extensions" = some (.vlist ones) →
      verify (projectResponse (popKey data "signature")) sigv key = .ok true →
      validate_response (.ok data) key
        = (process_ext_list key ones).map
            (fun es => ⟨projectResponse (popKey data "signature"), es⟩)) := by
  have hmain : ∀ data sigv ones,
      lookupV data "signature" = some sigv →
      lookupV (popKey data "signature") "extensions" = some (.vlist ones) →
      verify (projectResponse (popKey data "signature")) sigv key = .ok true →
      validate_response (.ok data) key
        = (process_ext_list key ones).map
            (fun es => ⟨projectResponse (popKey data "signature"), es⟩) := by
    intro data sigv ones hsig hext hver
    have hgk : getKeyV data "signature" = .ok sigv := by simp [getKeyV, hsig]
    unfold validate_response getResponseData
    simp only [bind_ok, hgk, hver, if_true]
    rw [show extensionsStep (popKey data "signature") key
        = process_ext_list key ones from by simp [extensionsStep, hext, process_extensions]]
  refine ⟨?_, ?_, ?_, hmain⟩
  · intro xs fs tag rest htag hm
    have hskip : process_ext_list key (Value.vdict fs :: rest)
        = process_ext_list key rest := by
      simp [process_ext_list, asExtDict, getKeyV, htag, hm]
    rw [process_ext_list_append, hskip, ← process_ext_list_append]
  · intro fs tag sv rest more htag hm hsv hv hrest
    simp [process_ext_list, asExtDict, getKeyV, htag, hm, hsv, hv, hrest]
  · intro data sigv xs fs tag sv rest accs hsig hext hver hxs htag hm hsv hv
    have hbad : process_ext_list key (xs ++ Value.vdict fs :: rest)
        = .error (.csobVerifyError "Cannot verify masked card extension response") := by
      rw [process_ext_list_append, hxs, bind_ok]
      have hhd : process_ext_list key (Value.vdict fs :: rest)
          = .error (.csobVerifyError "Cannot verify masked card extension response") := by
        simp [process_ext_list, asExtDict, getKeyV, htag, hm, hsv, hv]
      rw [hhd]
      rfl
    rw [hmain data sigv _ hsig hext hver, hbad]
    rfl

/-- C2 witness: a response with a verified `maskCln` extension followed by
an element with unknown tag; the unknown element is skipped, the whole
validation succeeds on the main path. -/
theorem claim_C2_witness :
    validate_response
        (.ok [("payId", Value.vstr "p1"), ("signature", Value.vstr "Sk:p1"),
          ("extensions", Value.vlist
            [Value.vdict [("extension", Value.vstr "maskCln"), ("dttm", Value.vstr "T"),
               ("maskedCln", Value.vstr "****1234"),
               ("signature", Value.vstr "Sk:maskCln|T|****1234")],
             Value.vdict [("extension", Value.vstr "unknown")]])])
        (.pem 1 false)
      = (process_ext_list (.pem 1 false)
            [Value.vdict [("extension", Value.vstr "maskCln"), ("dttm", Value.vstr "T"),
               ("maskedCln", Value.vstr "****1234"),
               ("signature", Value.vstr "Sk:maskCln|T|****1234")],
             Value.vdict [("extension", Value.vstr "unknown")]]).map
          (fun es => ⟨projectResponse (popKey
            [("payId", Value.vstr "p1"), ("signature", Value.vstr "Sk:p1"),
             ("extensions", Value.vlist
               [Value.vdict [("extension", Value.vstr "maskCln"), ("dttm", Value.vstr "T"),
                  ("maskedCln", Value.vstr "****1234"),
                  ("signature", Value.vstr "Sk:maskCln|T|****1234")],
                Value.vdict [("extension", Value.vstr "unknown")]])] "signature"), es⟩)
    ∧ process_ext_list (.pem 1 false) [Value.vdict [("extension", Value.vstr "unknown")]]
      = process_ext_list (.pem 1 false) [] := by
  constructor
  · exact (claim_C2_extension_validation (.pem 1 false)).2.2.2 _ (.vstr "Sk:p1") _
      rfl rfl rfl
  · exact (claim_C2_extension_validation (.pem 1 false)).1 [] _ (.vstr "unknown") []
      rfl rfl

/-! ### C3: integer coercion of resultCode / paymentStatus -/

/-- C3 counterexample: a response delivering `resultCode` as the string
`"0"` (with a valid signature over that string payload) comes back from
`validate_response` still as a string — the normal response validation
path performs no integer coercion. -/
theorem claim_C3_counterexample :
    validate_response (.ok [("resultCode", Value.vstr "0"), ("signature", Value.vstr "Sk:0")])
        (.pem 1 false)
      = .ok ⟨[("resultCode", Value.vstr "0")], []⟩
    ∧ isVInt (lookupD [("resultCode", Value.vstr "0")] "resultCode") = false :=
  ⟨rfl, rfl⟩

/-- Successful `pyInt` coercions always produce integers. -/
theorem pyInt_ok_vint (u w : Value) (h : pyInt u = .ok w) : ∃ n, w = .vint n := by
  cases u with
  | vint n => exact ⟨n, by cases h; rfl⟩
  | vbool b => exact ⟨if b then 1 else 0, by cases h; rfl⟩
  | vstr s =>
    cases hp : pyIntOfChars s.data with
    | error e => rw [pyInt, hp] at h; cases h
    | ok n => rw [pyInt, hp] at h; exact ⟨n, by cases h; rfl⟩
  | vnone => cases h
  | vlist l => cases h
  | vdict fs => cases h
  | vbytes b => cases h

/-- Entries of a successful `gateway_return` projection each come from the
per-key step on one of the projected keys. -/
theorem gw_projectList_mem (dd : Payload) (ks : List String) (o : Payload)
    (h : gw_projectList dd ks = .ok o) :
    ∀ kv ∈ o, ∃ k ∈ ks, gwStep dd k = .ok kv := by
  induction ks generalizing o with
  | nil =>
    cases h
    intro kv hkv
    cases hkv
  | cons k ks ih =>
    cases hs : gwStep dd k with
    | error e => rw [gw_projectList, hs] at h; cases h
    | ok kv0 =>
      rw [gw_projectList, hs, bind_ok] at h
      cases hr : gw_projectList dd ks with
      | error e => rw [hr] at h; cases h
      | ok rest =>
        rw [hr, bind_ok] at h
        cases h
        intro kv hkv
        cases hkv with
        | head => exact ⟨k, List.mem_cons_self k ks, hs⟩
        | tail _ htl =>
          obtain ⟨k', hk', hstep⟩ := ih rest hr kv htl
          exact ⟨k', List.mem_cons_of_mem k hk', hstep⟩

/-- C3 (amended): the gateway-redirect-return variant coerces
`resultCode` and `paymentStatus` to integers before verification and
return, but the normal response validation path (`validate_response`)
hands the projected fields to the caller exactly as delivered, with no
coercion. -/
theorem claim_C3_int_coercion (key : KeyMaterial) :
    (∀ dd o, gateway_return dd key = .ok o → gw_project dd = .ok o)
    ∧ (∀ dd o k v, gw_project dd = .ok o →
        (k == "resultCode" || k == "paymentStatus") = true → (k, v) ∈ o →
        ∃ n, v = .vint n ∧ pyInt (lookupD dd k) = .ok (.vint n))
    ∧ (∀ data r, validate_response (.ok data) key = .ok r →
        r.payload = projectResponse (popKey data "signature")) := by
  refine ⟨?_, ?_, ?_⟩
  · intro dd o h
    cases hp : gw_project dd with
    | error e => rw [gateway_return, hp] at h; cases h
    | ok o' =>
      rw [gateway_return, hp, bind_ok] at h
      cases hsv : getKeyV dd "signature" with
      | error e => rw [hsv] at h; cases h
      | ok sv =>
        rw [hsv, bind_ok] at h
        cases hv : verify o' sv key with
        | error e => rw [hv] at h; cases h
        | ok b =>
          rw [hv, bind_ok] at h
          cases b with
          | false => cases h
          | true => cases h; rfl
  · intro dd o k v hproj hk hmem
    obtain ⟨k', hk'mem, hstep⟩ := gw_projectList_mem dd _ o hproj (k, v) hmem
    by_cases hc : (k' == "resultCode" || k' == "paymentStatus") = true
    · rw [gwStep, if_pos hc] at hstep
      cases hp : pyInt (lookupD dd k') with
      | error e => rw [hp] at hstep; cases hstep
      | ok w =>
        rw [hp] at hstep
        cases hstep
        obtain ⟨n, hn⟩ := pyInt_ok_vint _ _ hp
        subst hn
        exact ⟨n, rfl, hp⟩
    · rw [gwStep, if_neg hc] at hstep
      cases hstep
      exact absurd hk hc
  · intro data r h
    cases hsv : getKeyV data "signature" with
    | error e => rw [validate_response, getResponseData, bind_ok, hsv] at h; cases h
    | ok sv =>
      rw [validate_response, getResponseData, bind_ok, hsv, bind_ok] at h
      cases hv : verify (projectResponse (popKey data "signature")) sv key with
      | error e => rw [hv] at h; cases h
      | ok b =>
        rw [hv, bind_ok] at h
        cases b with
        | false => cases h
        | true =>
          cases he : extensionsStep (popKey data "signature") key with
          | error e => rw [if_pos rfl, he] at h; cases h
          | ok es =>
            rw [if_pos rfl, he] at h
            cases h
            rfl

/-- C3 witness: a string `"7"` result code is coerced to the integer 7 by
the gateway-return path, while the JSON path returns a delivered string
unchanged. -/
theorem claim_C3_witness :
    gw_project [("resultCode", Value.vstr "7"), ("signature", Value.vstr "Sk:7")]
      = .ok [("resultCode", Value.vint 7)]
    ∧ (∃ n, Value.vint 7 = Value.vint n
        ∧ pyInt (lookupD [("resultCode", Value.vstr "7"), ("signature", Value.vstr "Sk:7")]
            "resultCode") = .ok (.vint n))
    ∧ (⟨[("resultCode", Value.vstr "0")], []⟩ : ValidatedResponse).payload
      = projectResponse (popKey
          [("resultCode", Value.vstr "0"), ("signature", Value.vstr "Sk:0")] "signature") := by
  refine ⟨?_, ?_, ?_⟩
  · exact (claim_C3_int_coercion (.pem 1 false)).1
      [("resultCode", Value.vstr "7"), ("signature", Value.vstr "Sk:7")]
      [("resultCode", Value.vint 7)] rfl
  · exact (claim_C3_int_coercion (.pem 1 false)).2.1
      [("resultCode", Value.vstr "7"), ("signature", Value.vstr "Sk:7")]
      [("resultCode", Value.vint 7)] "resultCode" (Value.vint 7) rfl rfl
      (List.mem_singleton.mpr rfl)
  · exact (claim_C3_int_coercion (.pem 1 false)).2.2
      [("resultCode", Value.vstr "0"), ("signature", Value.vstr "Sk:0")]
      ⟨[("resultCode", Value.vstr "0")], []⟩ rfl

/-! ### C4: missing signature field -/

/-- C4 counterexample: a well-formed JSON response body without a
`signature` field makes `validate_response` raise `KeyError` from
`data.pop('signature')` — a missing-key lookup error, not the
`CsobVerifyError` verification-failure kind. -/
theorem claim_C4_counterexample :
    validate_response (.ok [("resultCode", Value.vint 0)]) (.pem 1 false)
      = .error (.keyError "signature")
    ∧ isVerifyErrRes (validate_response (.ok [("resultCode", Value.vint 0)]) (.pem 1 false))
      = false :=
  ⟨rfl, rfl⟩

/-- C4 (amended): for every JSON response body lacking a `signature`
field, `validate_response` raises `KeyError "signature"` (an unrelated
lookup error), not the `VerificationError` kind. -/
theorem claim_C4_missing_signature (data : Payload) (key : KeyMaterial)
    (h : lookupV data "signature" = none) :
    validate_response (.ok data) key = .error (.keyError "signature") := by
  rw [validate_response, getResponseData, bind_ok,
    show getKeyV data "signature" = .error (.keyError "signature") from by
      simp [getKeyV, h]]
  rfl

/-- C4 witness: a one-field body with no signature. -/
theorem claim_C4_witness :
    validate_response (.ok [("resultCode", Value.vint 5)]) (.pem 0 true)
      = .error (.keyError "signature") :=
  claim_C4_missing_signature [("resultCode", Value.vint 5)] (.pem 0 true) rfl

/-! ### C10: description length guard in payment_init -/

/-- C10: `payment_init` rejects a description longer than 20 characters
with `ValueError` before anything is assembled or signed — the rejection
holds for every key, even unparsable signing keys, so no signing can have
happened — while a description of at most 20 characters passes the check
and the call proceeds exactly as the guard-free body. -/
theorem claim_C10_description_length (merchant_id : String) (key : KeyMaterial)
    (dttm_val : String) (order_no total_amount : Value) (return_url description : String)
    (customer_data merchant_data cart customer_id : Value) (currency language : String)
    (close_payment : Bool) (return_method pay_operation : String) (ttl_sec : Int)
    (logo_version color_scheme_version : Value) :
    (description.length > 20 →
      payment_init merchant_id key dttm_val order_no total_amount return_url
        description customer_data merchant_data cart customer_id currency language
        close_payment return_method pay_operation ttl_sec logo_version
        color_scheme_version = .error .valueError)
    ∧ (description.length ≤ 20 →
      payment_init merchant_id key dttm_val order_no total_amount return_url
        description customer_data merchant_data cart customer_id currency language
        close_payment return_method pay_operation ttl_sec logo_version
        color_scheme_version
      = payment_init_unchecked merchant_id key dttm_val order_no total_amount
          return_url description customer_data merchant_data cart customer_id
          currency language close_payment return_method pay_operation ttl_sec
          logo_version color_scheme_version) := by
  constructor
  · intro h
    rw [payment_init, if_pos h]
  · intro h
    rw [payment_init, if_neg (by omega)]

/-- C10 witness: a 21-character description is rejected even with an
unparsable signing key (nothing was signed); a 4-character one proceeds. -/
theorem claim_C10_witness :
    payment_init "M" (.invalid "junk") "D" (.vint 1) (.vint 1) "u"
        "123456789012345678901" .vnone .vnone .vnone .vnone "CZK" "CZ" true "POST"
        "payment" 600 .vnone .vnone = .error .valueError
    ∧ payment_init "M" (.pem 5 true) "D" (.vint 6) (.vint 100) "u" "desc"
        (.vdict []) .vnone
        (.vlist [.vdict [("name", Value.vstr "i"), ("quantity", Value.vint 1),
          ("amount", Value.vint 100)]])
        .vnone "CZK" "CZ" true "POST" "payment" 600 .vnone .vnone
      = payment_init_unchecked "M" (.pem 5 true) "D" (.vint 6) (.vint 100) "u" "desc"
          (.vdict []) .vnone
          (.vlist [.vdict [("name", Value.vstr "i"), ("quantity", Value.vint 1),
            ("amount", Value.vint 100)]])
          .vnone "CZK" "CZ" true "POST" "payment" 600 .vnone .vnone :=
  ⟨(claim_C10_description_length "M" (.invalid "junk") "D" (.vint 1) (.vint 1) "u"
      "123456789012345678901" .vnone .vnone .vnone .vnone "CZK" "CZ" true "POST"
      "payment" 600 .vnone .vnone).1 (by decide),
   (claim_C10_description_length "M" (.pem 5 true) "D" (.vint 6) (.vint 100) "u" "desc"
      (.vdict []) .vnone
      (.vlist [.vdict [("name", Value.vstr "i"), ("quantity", Value.vint 1),
        ("amount", Value.vint 100)]])
      .vnone "CZK" "CZ" true "POST" "payment" 600 .vnone .vnone).2 (by decide)⟩

end Pycsob

